import Mathlib

set_option maxHeartbeats 1000000

/-!
Verification of the configuration-reload supervisor and the WebRTC server
of rtsp-simple-server, shallowly embedded from the Go sources
(internal/core/core.go and the WebRTC server file).
-/

/-- Encryption mode of conf.Encryption / conf.RTMPEncryption
("no", "optional", "strict"). -/
inductive ConfEncryption
  | no
  | optional
  | strict
  deriving DecidableEq, Repr

/-- Paths map of the configuration (conf.Conf.Paths). The per-path
configuration tree is opaque to the supervisor, which only compares it
with reflect.DeepEqual and hands it over to pathManager.confReload, so it
is represented as an association list from path name to an opaque value. -/
abbrev PathsMap := List (String × String)

/-- Configuration fields read by Core.createResources and
Core.closeResources (internal/core/core.go). The conf package itself is
not under src/; the field set and types are taken from their uses in
core.go. Defaults are zero values, used to build concrete instances. -/
structure Conf where
  LogDestinations : List String := []
  LogFile : String := ""
  LogLevel : Nat := 0
  Metrics : Bool := false
  MetricsAddress : String := ""
  PPROF : Bool := false
  PPROFAddress : String := ""
  RTSPAddress : String := ""
  ReadTimeout : Nat := 0
  WriteTimeout : Nat := 0
  ReadBufferCount : Nat := 0
  Paths : PathsMap := []
  RTSPDisable : Bool := false
  Encryption : ConfEncryption := .no
  ExternalAuthenticationURL : String := ""
  AuthMethods : List String := []
  Protocols : List String := []
  RTPAddress : String := ""
  RTCPAddress : String := ""
  MulticastIPRange : String := ""
  MulticastRTPPort : Nat := 0
  MulticastRTCPPort : Nat := 0
  RunOnConnect : String := ""
  RunOnConnectRestart : Bool := false
  RTSPSAddress : String := ""
  ServerCert : String := ""
  ServerKey : String := ""
  RTMPDisable : Bool := false
  RTMPEncryption : ConfEncryption := .no
  RTMPAddress : String := ""
  RTMPSAddress : String := ""
  RTMPServerCert : String := ""
  RTMPServerKey : String := ""
  HLSDisable : Bool := false
  HLSAddress : String := ""
  HLSEncryption : Bool := false
  HLSServerKey : String := ""
  HLSServerCert : String := ""
  HLSAlwaysRemux : Bool := false
  HLSVariant : String := ""
  HLSSegmentCount : Nat := 0
  HLSSegmentDuration : Nat := 0
  HLSPartDuration : Nat := 0
  HLSSegmentMaxSize : Nat := 0
  HLSAllowOrigin : String := ""
  HLSTrustedProxies : List String := []
  HLSDirectory : String := ""
  WebRTCDisable : Bool := false
  WebRTCAddress : String := ""
  WebRTCEncryption : Bool := false
  WebRTCServerKey : String := ""
  WebRTCServerCert : String := ""
  WebRTCAllowOrigin : String := ""
  WebRTCTrustedProxies : List String := []
  WebRTCICEServers : List String := []
  WebRTCICEHostNAT1To1IPs : List String := []
  WebRTCICEUDPMuxAddress : String := ""
  WebRTCICETCPMuxAddress : String := ""
  API : Bool := false
  APIAddress : String := ""
  deriving DecidableEq, Repr

/-- Conf with every field at its zero value. -/
def defaultConf : Conf := {}

/-- Restart decisions computed at the top of Core.closeResources
(core.go lines 472-609), one boolean per subsystem. -/
structure CloseFlags where
  closeLogger : Bool
  closeMetrics : Bool
  closePPROF : Bool
  closePathManager : Bool
  closeRTSPServer : Bool
  closeRTSPSServer : Bool
  closeRTMPServer : Bool
  closeRTMPSServer : Bool
  closeHLSServer : Bool
  closeWebRTCServer : Bool
  closeAPI : Bool
  deriving DecidableEq, Repr

/-- Transcription of the "closeX" decision block of Core.closeResources
(core.go lines 472-609). `newConf = none` is the `newConf == nil` case;
reflect.DeepEqual on slices and maps is structural equality. -/
def computeCloseFlags (cur : Conf) (newConf : Option Conf) : CloseFlags :=
  match newConf with
  | none =>
    { closeLogger := true, closeMetrics := true, closePPROF := true
      closePathManager := true, closeRTSPServer := true, closeRTSPSServer := true
      closeRTMPServer := true, closeRTMPSServer := true, closeHLSServer := true
      closeWebRTCServer := true, closeAPI := true }
  | some n =>
    let closeLogger :=
      decide (n.LogDestinations ≠ cur.LogDestinations) ||
      decide (n.LogFile ≠ cur.LogFile)
    let closeMetrics :=
      decide (n.Metrics ≠ cur.Metrics) ||
      decide (n.MetricsAddress ≠ cur.MetricsAddress)
    let closePPROF :=
      decide (n.PPROF ≠ cur.PPROF) ||
      decide (n.PPROFAddress ≠ cur.PPROFAddress)
    let closePathManager :=
      decide (n.RTSPAddress ≠ cur.RTSPAddress) ||
      decide (n.ReadTimeout ≠ cur.ReadTimeout) ||
      decide (n.WriteTimeout ≠ cur.WriteTimeout) ||
      decide (n.ReadBufferCount ≠ cur.ReadBufferCount) ||
      closeMetrics
    let closeRTSPServer :=
      decide (n.RTSPDisable ≠ cur.RTSPDisable) ||
      decide (n.Encryption ≠ cur.Encryption) ||
      decide (n.ExternalAuthenticationURL ≠ cur.ExternalAuthenticationURL) ||
      decide (n.RTSPAddress ≠ cur.RTSPAddress) ||
      decide (n.AuthMethods ≠ cur.AuthMethods) ||
      decide (n.ReadTimeout ≠ cur.ReadTimeout) ||
      decide (n.WriteTimeout ≠ cur.WriteTimeout) ||
      decide (n.ReadBufferCount ≠ cur.ReadBufferCount) ||
      decide (n.Protocols ≠ cur.Protocols) ||
      decide (n.RTPAddress ≠ cur.RTPAddress) ||
      decide (n.RTCPAddress ≠ cur.RTCPAddress) ||
      decide (n.MulticastIPRange ≠ cur.MulticastIPRange) ||
      decide (n.MulticastRTPPort ≠ cur.MulticastRTPPort) ||
      decide (n.MulticastRTCPPort ≠ cur.MulticastRTCPPort) ||
      decide (n.RTSPAddress ≠ cur.RTSPAddress) ||
      decide (n.Protocols ≠ cur.Protocols) ||
      decide (n.RunOnConnect ≠ cur.RunOnConnect) ||
      decide (n.RunOnConnectRestart ≠ cur.RunOnConnectRestart) ||
      closeMetrics ||
      closePathManager
    let closeRTSPSServer :=
      decide (n.RTSPDisable ≠ cur.RTSPDisable) ||
      decide (n.Encryption ≠ cur.Encryption) ||
      decide (n.ExternalAuthenticationURL ≠ cur.ExternalAuthenticationURL) ||
      decide (n.RTSPSAddress ≠ cur.RTSPSAddress) ||
      decide (n.AuthMethods ≠ cur.AuthMethods) ||
      decide (n.ReadTimeout ≠ cur.ReadTimeout) ||
      decide (n.WriteTimeout ≠ cur.WriteTimeout) ||
      decide (n.ReadBufferCount ≠ cur.ReadBufferCount) ||
      decide (n.ServerCert ≠ cur.ServerCert) ||
      decide (n.ServerKey ≠ cur.ServerKey) ||
      decide (n.RTSPAddress ≠ cur.RTSPAddress) ||
      decide (n.Protocols ≠ cur.Protocols) ||
      decide (n.RunOnConnect ≠ cur.RunOnConnect) ||
      decide (n.RunOnConnectRestart ≠ cur.RunOnConnectRestart) ||
      closeMetrics ||
      closePathManager
    let closeRTMPServer :=
      decide (n.RTMPDisable ≠ cur.RTMPDisable) ||
      decide (n.RTMPEncryption ≠ cur.RTMPEncryption) ||
      decide (n.RTMPAddress ≠ cur.RTMPAddress) ||
      decide (n.ExternalAuthenticationURL ≠ cur.ExternalAuthenticationURL) ||
      decide (n.ReadTimeout ≠ cur.ReadTimeout) ||
      decide (n.WriteTimeout ≠ cur.WriteTimeout) ||
      decide (n.ReadBufferCount ≠ cur.ReadBufferCount) ||
      decide (n.RTSPAddress ≠ cur.RTSPAddress) ||
      decide (n.RunOnConnect ≠ cur.RunOnConnect) ||
      decide (n.RunOnConnectRestart ≠ cur.RunOnConnectRestart) ||
      closeMetrics ||
      closePathManager
    let closeRTMPSServer :=
      decide (n.RTMPDisable ≠ cur.RTMPDisable) ||
      decide (n.RTMPEncryption ≠ cur.RTMPEncryption) ||
      decide (n.RTMPSAddress ≠ cur.RTMPSAddress) ||
      decide (n.ExternalAuthenticationURL ≠ cur.ExternalAuthenticationURL) ||
      decide (n.ReadTimeout ≠ cur.ReadTimeout) ||
      decide (n.WriteTimeout ≠ cur.WriteTimeout) ||
      decide (n.ReadBufferCount ≠ cur.ReadBufferCount) ||
      decide (n.RTMPServerCert ≠ cur.RTMPServerCert) ||
      decide (n.RTMPServerKey ≠ cur.RTMPServerKey) ||
      decide (n.RTSPAddress ≠ cur.RTSPAddress) ||
      decide (n.RunOnConnect ≠ cur.RunOnConnect) ||
      decide (n.RunOnConnectRestart ≠ cur.RunOnConnectRestart) ||
      closeMetrics ||
      closePathManager
    let closeHLSServer :=
      decide (n.HLSDisable ≠ cur.HLSDisable) ||
      decide (n.HLSAddress ≠ cur.HLSAddress) ||
      decide (n.HLSEncryption ≠ cur.HLSEncryption) ||
      decide (n.HLSServerKey ≠ cur.HLSServerKey) ||
      decide (n.HLSServerCert ≠ cur.HLSServerCert) ||
      decide (n.ExternalAuthenticationURL ≠ cur.ExternalAuthenticationURL) ||
      decide (n.HLSAlwaysRemux ≠ cur.HLSAlwaysRemux) ||
      decide (n.HLSVariant ≠ cur.HLSVariant) ||
      decide (n.HLSSegmentCount ≠ cur.HLSSegmentCount) ||
      decide (n.HLSSegmentDuration ≠ cur.HLSSegmentDuration) ||
      decide (n.HLSPartDuration ≠ cur.HLSPartDuration) ||
      decide (n.HLSSegmentMaxSize ≠ cur.HLSSegmentMaxSize) ||
      decide (n.HLSAllowOrigin ≠ cur.HLSAllowOrigin) ||
      decide (n.HLSTrustedProxies ≠ cur.HLSTrustedProxies) ||
      decide (n.HLSDirectory ≠ cur.HLSDirectory) ||
      decide (n.ReadBufferCount ≠ cur.ReadBufferCount) ||
      closePathManager ||
      closeMetrics
    let closeWebRTCServer :=
      decide (n.WebRTCDisable ≠ cur.WebRTCDisable) ||
      decide (n.ExternalAuthenticationURL ≠ cur.ExternalAuthenticationURL) ||
      decide (n.WebRTCAddress ≠ cur.WebRTCAddress) ||
      decide (n.WebRTCEncryption ≠ cur.WebRTCEncryption) ||
      decide (n.WebRTCServerKey ≠ cur.WebRTCServerKey) ||
      decide (n.WebRTCServerCert ≠ cur.WebRTCServerCert) ||
      decide (n.WebRTCAllowOrigin ≠ cur.WebRTCAllowOrigin) ||
      decide (n.WebRTCTrustedProxies ≠ cur.WebRTCTrustedProxies) ||
      decide (n.WebRTCICEServers ≠ cur.WebRTCICEServers) ||
      decide (n.ReadBufferCount ≠ cur.ReadBufferCount) ||
      closeMetrics ||
      closePathManager ||
      decide (n.WebRTCICEHostNAT1To1IPs ≠ cur.WebRTCICEHostNAT1To1IPs) ||
      decide (n.WebRTCICEUDPMuxAddress ≠ cur.WebRTCICEUDPMuxAddress) ||
      decide (n.WebRTCICETCPMuxAddress ≠ cur.WebRTCICETCPMuxAddress)
    let closeAPI :=
      decide (n.API ≠ cur.API) ||
      decide (n.APIAddress ≠ cur.APIAddress) ||
      closePathManager ||
      closeRTSPServer ||
      closeRTSPSServer ||
      closeRTMPServer ||
      closeHLSServer ||
      closeWebRTCServer
    { closeLogger := closeLogger, closeMetrics := closeMetrics
      closePPROF := closePPROF, closePathManager := closePathManager
      closeRTSPServer := closeRTSPServer, closeRTSPSServer := closeRTSPSServer
      closeRTMPServer := closeRTMPServer, closeRTMPSServer := closeRTMPSServer
      closeHLSServer := closeHLSServer, closeWebRTCServer := closeWebRTCServer
      closeAPI := closeAPI }

/-- Subsystems owned by Core (the resource pointer fields of the Core
struct, core.go lines 26-51). -/
inductive Subsys
  | confWatcher
  | api
  | rtspsServer
  | rtspServer
  | pathManager
  | webRTCServer
  | hlsServer
  | rtmpsServer
  | rtmpServer
  | pprofSrv
  | metricsSrv
  | externalCmdPool
  | loggerSub
  deriving DecidableEq, Repr

/-- Observable actions performed by Core.New, Core.createResources and
Core.closeResources, in program order. -/
inductive CoreAction
  | create (s : Subsys)
  | close (s : Subsys)
  | confReloadPathManager (paths : PathsMap)
  | confReloadAPI (c : Conf)
  | logInfo (msg : String)
  | logWarn (msg : String)
  | printVersion
  | exitZero
  | cleanupRPICamera
  deriving DecidableEq, Repr

/-- State of the Core struct relevant to reconciliation: each resource
pointer is modelled as `none` (nil) or `some g` where `g` is a generation
number assigned at creation, so that "the same instance survives" is the
statement that the generation is unchanged. `nextGen` is the next unused
generation number. -/
structure CoreState where
  conf : Conf
  confFound : Bool
  logger : Option Nat := none
  metrics : Option Nat := none
  pprofSrv : Option Nat := none
  pathManager : Option Nat := none
  rtspServer : Option Nat := none
  rtspsServer : Option Nat := none
  rtmpServer : Option Nat := none
  rtmpsServer : Option Nat := none
  hlsServer : Option Nat := none
  webRTCServer : Option Nat := none
  api : Option Nat := none
  confWatcher : Option Nat := none
  externalCmdPool : Option Nat := none
  nextGen : Nat := 0
  deriving DecidableEq, Repr

/-- Tear-down step for one resource pointer, the shape shared by every
`if closeX && p.x != nil` block of Core.closeResources: when the flag is
set, the resource (if present) is closed and the pointer cleared. -/
def closeOpt (flag : Bool) (cur : Option Nat) (s : Subsys) :
    Option Nat × List CoreAction :=
  if flag then (none, if cur.isSome then [.close s] else []) else (cur, [])

/-- Transcription of Core.closeResources (core.go lines 471-683): computes
the restart flags, refreshes the path manager's Paths map in place when the
manager itself survives (lines 490-492), then tears subsystems down in
program order. Returns the new state and the list of performed actions. -/
def closeResources (st : CoreState) (newConf : Option Conf) (calledByAPI : Bool) :
    CoreState × List CoreAction :=
  let f := computeCloseFlags st.conf newConf
  let reloadPathsActs : List CoreAction :=
    match newConf with
    | some n =>
      if !f.closePathManager && decide (n.Paths ≠ st.conf.Paths) then
        [.confReloadPathManager n.Paths]
      else []
    | none => []
  let watcherActs : List CoreAction :=
    if newConf.isNone && st.confWatcher.isSome then [.close .confWatcher] else []
  let apiActs : List CoreAction :=
    match st.api with
    | some _ =>
      if f.closeAPI then [.close .api]
      else if !calledByAPI then
        match newConf with
        | some n => [.confReloadAPI n]
        | none => []
      else []
    | none => []
  let rRtsps := closeOpt f.closeRTSPSServer st.rtspsServer .rtspsServer
  let rRtsp := closeOpt f.closeRTSPServer st.rtspServer .rtspServer
  let rPM := closeOpt f.closePathManager st.pathManager .pathManager
  let rWebrtc := closeOpt f.closeWebRTCServer st.webRTCServer .webRTCServer
  let rHls := closeOpt f.closeHLSServer st.hlsServer .hlsServer
  let rRtmps := closeOpt f.closeRTMPSServer st.rtmpsServer .rtmpsServer
  let rRtmp := closeOpt f.closeRTMPServer st.rtmpServer .rtmpServer
  let rPprof := closeOpt f.closePPROF st.pprofSrv .pprofSrv
  let rMetrics := closeOpt f.closeMetrics st.metrics .metricsSrv
  let cmdPoolActs : List CoreAction :=
    if newConf.isNone && st.externalCmdPool.isSome then
      [.logInfo "waiting for external commands", .close .externalCmdPool]
    else []
  let rpiActs : List CoreAction :=
    if newConf.isNone then [.cleanupRPICamera] else []
  let rLogger := closeOpt f.closeLogger st.logger .loggerSub
  ({ st with
      confWatcher := if newConf.isNone then none else st.confWatcher
      api := if f.closeAPI then none else st.api
      rtspsServer := rRtsps.1
      rtspServer := rRtsp.1
      pathManager := rPM.1
      webRTCServer := rWebrtc.1
      hlsServer := rHls.1
      rtmpsServer := rRtmps.1
      rtmpServer := rRtmp.1
      pprofSrv := rPprof.1
      metrics := rMetrics.1
      logger := rLogger.1 },
    reloadPathsActs ++ watcherActs ++ apiActs ++ rRtsps.2 ++ rRtsp.2 ++
    rPM.2 ++ rWebrtc.2 ++ rHls.2 ++ rRtmps.2 ++ rRtmp.2 ++
    rPprof.2 ++ rMetrics.2 ++ cmdPoolActs ++ rpiActs ++ rLogger.2)

/-- Version string (core.go line 23). -/
def version : String := "v0.0.0"

/-- Transcription of Core.createResources (core.go lines 186-469): every
still-nil resource whose enabling condition holds is created, in program
order; already-present resources are kept. Socket/TLS failures of the
constructors and the rlimit/gin side effects are not modelled: creation
always succeeds. -/
def createOpt (cond : Bool) (cur : Option Nat) (g : Nat) (s : Subsys) :
    Option Nat × Nat × List CoreAction :=
  if cond then
    match cur with
    | none => (some g, g + 1, [.create s])
    | some m => (some m, g, [])
  else (cur, g, [])

/-- Transcription of Core.createResources (core.go lines 186-469): every
still-nil resource whose enabling condition holds is created, in program
order; already-present resources are kept. Socket/TLS failures of the
constructors and the rlimit/gin side effects are not modelled: creation
always succeeds. Each `rX` is (new pointer, next generation, actions). -/
def createResources (st : CoreState) (initial : Bool) : CoreState × List CoreAction :=
  let rLogger := createOpt true st.logger st.nextGen .loggerSub
  let aBanner : List CoreAction :=
    if initial then
      [.logInfo ("MediaMTX / rtsp-simple-server " ++ version)] ++
      (if !st.confFound then
        [.logWarn "configuration file not found, using an empty configuration"]
      else []) else []
  let rCmdPool : Option Nat × Nat × List CoreAction :=
    if initial then (some rLogger.2.1, rLogger.2.1 + 1, [.create .externalCmdPool])
    else (st.externalCmdPool, rLogger.2.1, [])
  let rMetrics := createOpt st.conf.Metrics st.metrics rCmdPool.2.1 .metricsSrv
  let rPprof := createOpt st.conf.PPROF st.pprofSrv rMetrics.2.1 .pprofSrv
  let rPM := createOpt true st.pathManager rPprof.2.1 .pathManager
  let rRtsp := createOpt
    (!st.conf.RTSPDisable &&
      (st.conf.Encryption == .no || st.conf.Encryption == .optional))
    st.rtspServer rPM.2.1 .rtspServer
  let rRtsps := createOpt
    (!st.conf.RTSPDisable &&
      (st.conf.Encryption == .strict || st.conf.Encryption == .optional))
    st.rtspsServer rRtsp.2.1 .rtspsServer
  let rRtmp := createOpt
    (!st.conf.RTMPDisable &&
      (st.conf.RTMPEncryption == .no || st.conf.RTMPEncryption == .optional))
    st.rtmpServer rRtsps.2.1 .rtmpServer
  let rRtmps := createOpt
    (!st.conf.RTMPDisable &&
      (st.conf.RTMPEncryption == .strict || st.conf.RTMPEncryption == .optional))
    st.rtmpsServer rRtmp.2.1 .rtmpsServer
  let rHls := createOpt (!st.conf.HLSDisable) st.hlsServer rRtmps.2.1 .hlsServer
  let rWebrtc := createOpt (!st.conf.WebRTCDisable) st.webRTCServer rHls.2.1 .webRTCServer
  let rAPI := createOpt st.conf.API st.api rWebrtc.2.1 .api
  let rWatcher : Option Nat × Nat × List CoreAction :=
    if initial && st.confFound then (some rAPI.2.1, rAPI.2.1 + 1, [.create .confWatcher])
    else (st.confWatcher, rAPI.2.1, [])
  ({ st with
      logger := rLogger.1, externalCmdPool := rCmdPool.1, metrics := rMetrics.1
      pprofSrv := rPprof.1, pathManager := rPM.1, rtspServer := rRtsp.1
      rtspsServer := rRtsps.1, rtmpServer := rRtmp.1, rtmpsServer := rRtmps.1
      hlsServer := rHls.1, webRTCServer := rWebrtc.1, api := rAPI.1
      confWatcher := rWatcher.1, nextGen := rWatcher.2.1 },
    rLogger.2.2 ++ aBanner ++ rCmdPool.2.2 ++ rMetrics.2.2 ++ rPprof.2.2 ++
    rPM.2.2 ++ rRtsp.2.2 ++ rRtsps.2.2 ++ rRtmp.2.2 ++ rRtmps.2.2 ++
    rHls.2.2 ++ rWebrtc.2.2 ++ rAPI.2.2 ++ rWatcher.2.2)

/-- Transcription of Core.reloadConf (core.go lines 685-689): closeResources
with the new configuration, install it, then createResources. -/
def reloadConf (st : CoreState) (newConf : Conf) (calledByAPI : Bool) :
    CoreState × List CoreAction :=
  let r1 := closeResources st (some newConf) calledByAPI
  let st2 := { r1.1 with conf := newConf }
  let r2 := createResources st2 false
  (r2.1, r1.2 ++ r2.2)

/-- Result of webRTCServer.authenticate: nil, pathErrAuthNotCritical, or
pathErrAuthCritical with its message. -/
inductive AuthResult
  | ok
  | notCritical
  | critical (message : String)
  deriving DecidableEq, Repr

/-- Inputs of webRTCServer.authenticate (WebRTC server file, lines
423-478). `basicAuth` is the result of ctx.Request.BasicAuth() (`none`
when ok is false); `externalAuthErr` is the outcome the externalAuth HTTP
call would return (`none` = 2xx); `ipAllowed` is the outcome
ipEqualOrInRange would return on the client IP and `pathIPs`. The two
helpers perform I/O outside this file, so their results are inputs. -/
structure WebRTCAuthInput where
  externalAuthenticationURL : String
  pathIPs : Option (List String)
  pathUser : String
  pathPass : String
  clientIP : String
  basicAuth : Option (String × String)
  externalAuthErr : Option String
  ipAllowed : Bool
  deriving DecidableEq, Repr

/-- Transcription of webRTCServer.authenticate (lines 423-478): external
auth first (failure is not-critical without Basic credentials, critical
with them), then the read IP allowlist, then read user/password. -/
def webRTCAuthenticate (a : WebRTCAuthInput) : AuthResult :=
  let afterUser : AuthResult :=
    if a.pathUser ≠ "" then
      match a.basicAuth with
      | none => .notCritical
      | some (user, pass) =>
        if user ≠ a.pathUser || pass ≠ a.pathPass then
          .critical "invalid credentials"
        else .ok
    else .ok
  let afterIPs : AuthResult :=
    if a.pathIPs.isSome then
      if !a.ipAllowed then
        .critical ("IP \x27" ++ a.clientIP ++ "\x27 not allowed")
      else afterUser
    else afterUser
  if a.externalAuthenticationURL ≠ "" then
    match a.externalAuthErr with
    | some e =>
      match a.basicAuth with
      | none => .notCritical
      | some _ => .critical ("external authentication failed: " ++ e)
    | none => afterIPs
  else afterIPs

/-- Outcome kinds of authentication, without the attached message. -/
inductive AuthKind
  | allowed
  | notCritical
  | critical
  deriving DecidableEq, Repr

/-- Kind of an AuthResult. -/
def authResultKind : AuthResult → AuthKind
  | .ok => .allowed
  | .notCritical => .notCritical
  | .critical _ => .critical

/-- Authentication outcome as worded by the specification: checks in the
order external-auth URL, IP allowlist, user/password; external-auth
failure is not-critical without Basic credentials and critical with them;
an IP outside the allowlist is critical; with a read user configured,
missing credentials are not-critical and non-matching ones critical;
otherwise authentication succeeds. -/
def webRTCAuthClaim (a : WebRTCAuthInput) : AuthKind :=
  if a.externalAuthenticationURL ≠ "" ∧ a.externalAuthErr.isSome then
    if a.basicAuth.isNone then .notCritical else .critical
  else if a.pathIPs.isSome ∧ ¬a.ipAllowed then .critical
  else if a.pathUser ≠ "" ∧ a.basicAuth.isNone then .notCritical
  else if a.pathUser ≠ "" ∧
      (∀ up ∈ a.basicAuth, up.1 ≠ a.pathUser ∨ up.2 ≠ a.pathPass) then .critical
  else .allowed

/-- Steps performed by webRTCServer.run after its request loop exits
(lines 307-320). -/
inductive WebRTCShutdownStep
  | cancelContext
  | shutdownHTTPServer
  | closeListener
  | waitConns
  | closeUDPMuxLn
  | closeTCPMuxLn
  deriving DecidableEq, Repr

/-- Transcription of the tail of webRTCServer.run (lines 307-320):
ctxCancel, hs.Shutdown, ln.Close, wg.Wait, then the optional ICE UDP mux
and ICE TCP mux listeners. -/
def webRTCShutdownSeq (hasUDPMuxLn hasTCPMuxLn : Bool) : List WebRTCShutdownStep :=
  [.cancelContext, .shutdownHTTPServer, .closeListener, .waitConns] ++
  (if hasUDPMuxLn then [.closeUDPMuxLn] else []) ++
  (if hasTCPMuxLn then [.closeTCPMuxLn] else [])

/-- Index of the first occurrence of an element in a list (length of the
list when absent). -/
def firstIdx {α : Type} [DecidableEq α] (a : α) : List α → Nat
  | [] => 0
  | b :: l => if b = a then 0 else firstIdx a l + 1

/-- Fields of a webRTCConn that the server's request loop reads when
answering apiConnsList/apiConnsKick (lines 271-293). -/
structure WebRTCConn where
  uuid : String
  created : Nat
  remoteAddr : String
  peerConnectionEstablished : Bool
  localCandidate : String
  remoteCandidate : String
  bytesReceived : Nat
  bytesSent : Nat
  deriving DecidableEq, Repr

/-- Item of the apiConnsList response (webRTCServerAPIConnsListItem,
lines 28-36). -/
structure WebRTCConnsListItem where
  created : Nat
  remoteAddr : String
  peerConnectionEstablished : Bool
  localCandidate : String
  remoteCandidate : String
  bytesReceived : Nat
  bytesSent : Nat
  deriving DecidableEq, Repr

/-- Whether the webRTCServer's request loop is still running: once its
context is cancelled the loop breaks out (line 302-304) and no longer
receives on the API channels, so the select in apiConnsList/apiConnsKick
can only take the ctx.Done branch. -/
inductive ServerPhase
  | running
  | terminated
  deriving DecidableEq, Repr

/-- Request-loop-owned state of the webRTCServer. -/
structure WebRTCServerState where
  phase : ServerPhase
  conns : List WebRTCConn
  deriving DecidableEq, Repr

/-- Transcription of webRTCServer.apiConnsList (lines 489-501) together
with the chAPIConnsList branch of the request loop (lines 266-283): while
running, the loop answers with the items of every connection keyed by
UUID; after cancellation the call returns the terminated error. -/
def webRTCAPIConnsList (st : WebRTCServerState) :
    Option (List (String × WebRTCConnsListItem)) × Option String :=
  match st.phase with
  | .terminated => (none, some "terminated")
  | .running =>
    (some (st.conns.map (fun c =>
      (c.uuid,
        { created := c.created
          remoteAddr := c.remoteAddr
          peerConnectionEstablished := c.peerConnectionEstablished
          localCandidate := c.localCandidate
          remoteCandidate := c.remoteCandidate
          bytesReceived := c.bytesReceived
          bytesSent := c.bytesSent }))), none)

/-- Transcription of webRTCServer.apiConnsKick (lines 504-517) together
with the chAPIConnsKick branch of the request loop (lines 285-300): while
running, the loop removes and closes the first connection whose UUID
equals the id and reports success, or answers the not-found error; after
cancellation the call returns the terminated error. The middle component
is the connection on which close() was called, if any. -/
def webRTCAPIConnsKick (st : WebRTCServerState) (id : String) :
    WebRTCServerState × Option WebRTCConn × Option String :=
  match st.phase with
  | .terminated => (st, none, some "terminated")
  | .running =>
    match st.conns.find? (fun c => c.uuid == id) with
    | some c => ({ st with conns := st.conns.erase c }, some c, none)
    | none => (st, none, some "not found")

/-- Response written by webRTCServer.onRequest after the path-describe
step. -/
inductive OnRequestResult
  | reply (status : Nat) (headers : List (String × String))
  | serveIndex
  | websocket
  deriving DecidableEq, Repr

/-- WWW-Authenticate challenge issued on authentication failure
(lines 375 and 380). -/
def wwwAuthChallenge : String := "Basic realm=\x22rtsp-simple-server\x22"

/-- Transcription of webRTCServer.onRequest from the authentication step
onward (lines 371-405), given the authenticate result and the file-name
part of the request path (empty string for the page, "ws" for the
websocket endpoint). Returns the response and the emitted log lines. -/
def webRTCOnRequestAfterDescribe (auth : AuthResult) (fname : String) :
    OnRequestResult × List String :=
  match auth with
  | .critical m =>
    (.reply 401 [("WWW-Authenticate", wwwAuthChallenge)],
      ["authentication error: " ++ m])
  | .notCritical =>
    (.reply 401 [("WWW-Authenticate", wwwAuthChallenge)], [])
  | .ok =>
    match fname with
    | "" => (.serveIndex, [])
    | _ => (.websocket, [])

/-- CLI arguments of the program (the cli struct, core.go lines 53-56). -/
structure CLIArgs where
  Version : Bool
  Confpath : String
  deriving DecidableEq, Repr

/-- Modelled from the spec: kong treats an argument starting with "--" as
a named flag and the rest as positional arguments. -/
def isCLIFlag (a : String) : Bool :=
  match a.data with
  | '-' :: '-' :: _ => true
  | _ => false

/-- Modelled from the spec: the kong argument parser is an external
library; per the cli struct tags (core.go lines 53-56) and spec section 6,
it accepts the boolean flag --version and one positional argument
confpath defaulting to rtsp-simple-server.yml. -/
def parseCLI (args : List String) : CLIArgs :=
  { Version := args.contains "--version"
    Confpath := ((args.filter (fun a => !isCLIFlag a)).headD
      "rtsp-simple-server.yml") }

/-- Modelled from the spec: conf.Load is not under src/; per spec section
6 ("Missing config file is a warning, not a fatal") and the package's
TestConfFromEnvOnly, loading a missing file returns the default
configuration, found = false and no error. `file` is the parsed content
of the configuration file, `none` when the file does not exist. -/
def confLoad (file : Option Conf) : Conf × Bool :=
  match file with
  | none => (defaultConf, false)
  | some c => (c, true)

/-- Transcription of core.New (core.go lines 59-114): parse the CLI; with
--version print the version and exit 0; otherwise load the configuration
and build the resources (createResources with initial = true). Returns
the performed actions and the resulting core state (none when the
process exited at the version branch). -/
def coreNew (args : List String) (file : Option Conf) :
    List CoreAction × Option CoreState :=
  let cli := parseCLI args
  if cli.Version then ([.printVersion, .exitZero], none)
  else
    let (c, found) := confLoad file
    let st0 : CoreState := { conf := c, confFound := found }
    let (st1, acts) := createResources st0 true
    (acts, some st1)

theorem mem_ite_singleton {α : Type} (a x : α) (b : Bool) :
    a ∈ (if b then [x] else ([] : List α)) ↔ (b = true ∧ a = x) := by
  cases b <;> simp

theorem closeOpt_fst (f : Bool) (c : Option Nat) (s : Subsys) :
    (closeOpt f c s).1 = if f then none else c := by
  unfold closeOpt; cases f <;> simp

theorem mem_closeOpt (a : CoreAction) (f : Bool) (c : Option Nat) (s : Subsys) :
    a ∈ (closeOpt f c s).2 ↔ (f = true ∧ c.isSome = true ∧ a = .close s) := by
  unfold closeOpt; cases f <;> cases c <;> simp

theorem createOpt_some (f : Bool) (m g : Nat) (s : Subsys) :
    createOpt f (some m) g s = (some m, g, []) := by cases f <;> rfl

theorem mem_createOpt (a : CoreAction) (f : Bool) (c : Option Nat) (g : Nat) (s : Subsys) :
    a ∈ (createOpt f c g s).2.2 ↔ (f = true ∧ c = none ∧ a = .create s) := by
  unfold createOpt; cases f <;> cases c <;> simp

theorem createOpt_fst (f : Bool) (c : Option Nat) (g : Nat) (s : Subsys) :
    (createOpt f c g s).1 = if f = true ∧ c = none then some g else c := by
  unfold createOpt; cases f <;> cases c <;> simp

/-- C1: the restart decision of the API does not include the RTMPS server.
Evaluating the reload decisions at a configuration change that touches
only RTMPSAddress: closeRTMPSServer is true while closeAPI stays false,
so the RTMPS protocol server is closed and recreated without the API
(which holds a pointer to it) being restarted. This contradicts the
claimed transitive closure of dependencies into the API: the closeAPI
disjunction lists every other protocol server but omits
closeRTMPSServer. -/
theorem closeAPI_ignores_rtmpsServer_restart :
    (computeCloseFlags defaultConf
      (some { defaultConf with RTMPSAddress := ":1937" })).closeRTMPSServer = true ∧
    (computeCloseFlags defaultConf
      (some { defaultConf with RTMPSAddress := ":1937" })).closeAPI = false := by
  decide

/-- C5: on shutdown the WebRTC server cancels its context, shuts down and
closes the HTTP listener, waits for all connection actors, and only
afterwards closes the ICE UDP mux and ICE TCP mux listeners (when they
exist). -/
theorem webRTCShutdownSeq_order :
    ∀ u t : Bool,
      firstIdx WebRTCShutdownStep.cancelContext (webRTCShutdownSeq u t) <
        firstIdx WebRTCShutdownStep.shutdownHTTPServer (webRTCShutdownSeq u t) ∧
      firstIdx WebRTCShutdownStep.shutdownHTTPServer (webRTCShutdownSeq u t) <
        firstIdx WebRTCShutdownStep.closeListener (webRTCShutdownSeq u t) ∧
      firstIdx WebRTCShutdownStep.closeListener (webRTCShutdownSeq u t) <
        firstIdx WebRTCShutdownStep.waitConns (webRTCShutdownSeq u t) ∧
      (WebRTCShutdownStep.closeUDPMuxLn ∈ webRTCShutdownSeq u t ↔ u = true) ∧
      (WebRTCShutdownStep.closeTCPMuxLn ∈ webRTCShutdownSeq u t ↔ t = true) ∧
      (WebRTCShutdownStep.closeUDPMuxLn ∈ webRTCShutdownSeq u t →
        firstIdx WebRTCShutdownStep.waitConns (webRTCShutdownSeq u t) <
          firstIdx WebRTCShutdownStep.closeUDPMuxLn (webRTCShutdownSeq u t)) ∧
      (WebRTCShutdownStep.closeTCPMuxLn ∈ webRTCShutdownSeq u t →
        firstIdx WebRTCShutdownStep.waitConns (webRTCShutdownSeq u t) <
          firstIdx WebRTCShutdownStep.closeTCPMuxLn (webRTCShutdownSeq u t)) := by
  intro u t
  cases u <;> cases t <;> decide

/-- Witness for C5 at a server that owns both mux listeners. -/
theorem webRTCShutdownSeq_order_witness :
    WebRTCShutdownStep.closeUDPMuxLn ∈ webRTCShutdownSeq true true ∧
    firstIdx WebRTCShutdownStep.waitConns (webRTCShutdownSeq true true) <
      firstIdx WebRTCShutdownStep.closeUDPMuxLn (webRTCShutdownSeq true true) ∧
    firstIdx WebRTCShutdownStep.waitConns (webRTCShutdownSeq true true) <
      firstIdx WebRTCShutdownStep.closeTCPMuxLn (webRTCShutdownSeq true true) :=
  ⟨by decide,
    (webRTCShutdownSeq_order true true).2.2.2.2.2.1 (by decide),
    (webRTCShutdownSeq_order true true).2.2.2.2.2.2 (by decide)⟩

/-- C7: after the WebRTC server's context has been cancelled and its
request loop has exited, apiConnsList and apiConnsKick answer the
terminated error instead of blocking or succeeding. -/
theorem webRTCAPI_terminated_error :
    ∀ (conns : List WebRTCConn) (id : String),
      webRTCAPIConnsList { phase := .terminated, conns := conns } =
        (none, some "terminated") ∧
      webRTCAPIConnsKick { phase := .terminated, conns := conns } id =
        ({ phase := .terminated, conns := conns }, none, some "terminated") := by
  intro conns id
  exact ⟨rfl, rfl⟩

/-- C8: every authentication failure in the WebRTC request handler is
answered with 401 Unauthorized carrying a WWW-Authenticate Basic
challenge, and a log line is emitted exactly when the failure is
critical. -/
theorem webRTCOnRequest_authFailure_401 :
    ∀ (m fname : String),
      webRTCOnRequestAfterDescribe (.critical m) fname =
        (.reply 401 [("WWW-Authenticate", wwwAuthChallenge)],
          ["authentication error: " ++ m]) ∧
      webRTCOnRequestAfterDescribe .notCritical fname =
        (.reply 401 [("WWW-Authenticate", wwwAuthChallenge)], []) := by
  intro m fname
  exact ⟨rfl, rfl⟩

/-- C4: the WebRTC read authenticator checks external auth URL, then the
IP allowlist, then user/password, with exactly the outcomes worded in the
specification (webRTCAuthClaim). -/
theorem webRTCAuthenticate_matches_spec :
    ∀ a : WebRTCAuthInput, authResultKind (webRTCAuthenticate a) = webRTCAuthClaim a := by
  intro a
  obtain ⟨url, ips, user, pass, ip, ba, ext, ipok⟩ := a
  simp only [webRTCAuthenticate, webRTCAuthClaim]
  cases ext <;> rcases ba with _ | ⟨u, p⟩ <;> cases ips <;> cases ipok <;>
    simp_all [authResultKind] <;> split_ifs <;> simp_all [authResultKind]

theorem find?_uuid_eq_of_nodup (conns : List WebRTCConn) (id : String) (c : WebRTCConn)
    (hnd : (conns.map WebRTCConn.uuid).Nodup) (hmem : c ∈ conns) (hid : c.uuid = id) :
    conns.find? (fun x => x.uuid == id) = some c := by
  induction conns with
  | nil => simp at hmem
  | cons d l ih =>
    simp only [List.map_cons, List.nodup_cons] at hnd
    by_cases hd : d.uuid = id
    · have hdc : d = c := by
        rcases List.mem_cons.mp hmem with rfl | hcl
        · rfl
        · have hm : c.uuid ∈ l.map WebRTCConn.uuid :=
            List.mem_map_of_mem WebRTCConn.uuid hcl
          rw [hid, ← hd] at hm
          exact absurd hm hnd.1
      rw [List.find?_cons_of_pos _ (by simp [hd])]
      exact congrArg some hdc
    · have hcl : c ∈ l := by
        rcases List.mem_cons.mp hmem with rfl | hcl
        · exact absurd hid hd
        · exact hcl
      rw [List.find?_cons_of_neg _ (by simp [hd])]
      exact ih hnd.2 hcl

/-- C6: the kick operation of the running WebRTC server returns the
not-found error exactly when no connection carries the requested UUID;
when the UUIDs are distinct and a connection matches, that connection is
removed from the set, close() is called on it, and no error is
returned. -/
theorem webRTCAPIConnsKick_spec :
    ∀ (conns : List WebRTCConn) (id : String),
      ((webRTCAPIConnsKick { phase := .running, conns := conns } id).2.2 =
          some "not found" ↔ ∀ c ∈ conns, c.uuid ≠ id) ∧
      ((conns.map WebRTCConn.uuid).Nodup →
        ∀ c ∈ conns, c.uuid = id →
          webRTCAPIConnsKick { phase := .running, conns := conns } id =
            ({ phase := .running, conns := conns.erase c }, some c, none)) := by
  intro conns id
  constructor
  · unfold webRTCAPIConnsKick
    cases h : conns.find? (fun c => c.uuid == id) with
    | some c =>
      simp only [h]
      constructor
      · intro habs; exact absurd habs (by simp)
      · intro hall
        have hmem := List.mem_of_find?_eq_some h
        have hp := List.find?_some h
        simp only [beq_iff_eq] at hp
        exact absurd hp (hall c hmem)
    | none =>
      simp only [h]
      constructor
      · intro _ c hc
        have := List.find?_eq_none.mp h c hc
        simpa using this
      · intro _; trivial
  · intro hnd c hmem hid
    unfold webRTCAPIConnsKick
    rw [find?_uuid_eq_of_nodup conns id c hnd hmem hid]

/-- Sample connections for the C6 witness. -/
def wcA : WebRTCConn :=
  { uuid := "a", created := 0, remoteAddr := "10.0.0.1:3000"
    peerConnectionEstablished := false, localCandidate := ""
    remoteCandidate := "", bytesReceived := 0, bytesSent := 0 }

/-- Second sample connection for the C6 witness. -/
def wcB : WebRTCConn :=
  { uuid := "b", created := 1, remoteAddr := "10.0.0.2:3001"
    peerConnectionEstablished := true, localCandidate := "lc"
    remoteCandidate := "rc", bytesReceived := 7, bytesSent := 9 }

/-- Witness for C6 at a two-connection server kicked by UUID "b". -/
theorem webRTCAPIConnsKick_spec_witness :
    webRTCAPIConnsKick { phase := .running, conns := [wcA, wcB] } "b" =
      ({ phase := .running, conns := [wcA] }, some wcB, none) := by
  have h := (webRTCAPIConnsKick_spec [wcA, wcB] "b").2 (by decide) wcB (by decide) rfl
  have he : [wcA, wcB].erase wcB = [wcA] := by decide
  rw [he] at h
  exact h

/-- C9: the CLI takes one positional confpath argument defaulting to
rtsp-simple-server.yml; --version prints the version and exits 0; and
with a missing configuration file startup proceeds on the empty (default)
configuration, logging a warning and no fatal error. -/
theorem cli_and_startup_spec :
    (parseCLI []).Confpath = "rtsp-simple-server.yml" ∧
    (parseCLI ["myconf.yml"]).Confpath = "myconf.yml" ∧
    (∀ file : Option Conf,
      coreNew ["--version"] file = ([.printVersion, .exitZero], none)) ∧
    (coreNew [] none).2.isSome = true ∧
    Option.map CoreState.conf (coreNew [] none).2 = some defaultConf ∧
    CoreAction.logWarn "configuration file not found, using an empty configuration"
      ∈ (coreNew [] none).1 ∧
    CoreAction.exitZero ∉ (coreNew [] none).1 := by
  refine ⟨by decide, by decide, ?_, by decide, by decide, by decide, by decide⟩
  intro file
  rfl

/-- Core state in which every resource exists, as after a successful
initial createResources. -/
def fullCoreState : CoreState :=
  { conf := defaultConf, confFound := true, logger := some 0, metrics := some 1
    pprofSrv := some 2, pathManager := some 3, rtspServer := some 4
    rtspsServer := some 5, rtmpServer := some 6, rtmpsServer := some 7
    hlsServer := some 8, webRTCServer := some 9, api := some 10
    confWatcher := some 11, externalCmdPool := some 12, nextGen := 13 }

/-- Counterexample to C3 as stated: on a full tear-down the path manager
is closed before the WebRTC server (and likewise before the HLS, RTMPS
and RTMP servers), so the tear-down order is not "API, then all dependent
protocol servers, then the path manager". -/
theorem closeResources_pathManager_before_webRTC :
    CoreAction.close .pathManager ∈ (closeResources fullCoreState none false).2 ∧
    CoreAction.close .webRTCServer ∈ (closeResources fullCoreState none false).2 ∧
    firstIdx (CoreAction.close .pathManager) (closeResources fullCoreState none false).2 <
      firstIdx (CoreAction.close .webRTCServer) (closeResources fullCoreState none false).2 := by
  decide

/-- Projection selecting the close actions of the subsystems whose
tear-down order C3 talks about. -/
def closedCoreSubsys : CoreAction → Option Subsys
  | .close .confWatcher => none
  | .close .externalCmdPool => none
  | .close s => some s
  | _ => none

/-- Tear-down order actually implemented by closeResources
(core.go lines 616-682). -/
def coreCloseOrder : List Subsys :=
  [.api, .rtspsServer, .rtspServer, .pathManager, .webRTCServer,
   .hlsServer, .rtmpsServer, .rtmpServer, .pprofSrv, .metricsSrv, .loggerSub]

theorem closedCoreSubsys_confReloadPathManager (p : PathsMap) :
    closedCoreSubsys (CoreAction.confReloadPathManager p) = none := rfl

theorem filterMap_closeOpt_sublist (f : Bool) (c : Option Nat) (s : Subsys) :
    ((closeOpt f c s).2.filterMap closedCoreSubsys).Sublist
      (closedCoreSubsys (.close s)).toList := by
  unfold closeOpt
  cases f <;> cases c <;>
    simp only [List.filterMap, Option.toList, List.filterMap_nil, ite_true, ite_false,
      Option.isSome] <;>
  first
  | simp
  | (cases h : closedCoreSubsys (CoreAction.close s) <;> simp [List.filterMap_cons, h])

/-- C3 amended: in every tear-down, the subsystem close operations occur
as a subsequence of the order API, RTSPS server, RTSP server, path
manager, WebRTC server, HLS server, RTMPS server, RTMP server, pprof,
metrics, logger. -/
theorem closeResources_close_order :
    ∀ (st : CoreState) (newConf : Option Conf) (calledByAPI : Bool),
      ((closeResources st newConf calledByAPI).2.filterMap closedCoreSubsys).Sublist
        coreCloseOrder := by
  intro st nc capi
  have htarget : coreCloseOrder =
      [] ++ [] ++ [Subsys.api] ++ [Subsys.rtspsServer] ++ [Subsys.rtspServer] ++
      [Subsys.pathManager] ++ [Subsys.webRTCServer] ++ [Subsys.hlsServer] ++
      [Subsys.rtmpsServer] ++ [Subsys.rtmpServer] ++ [Subsys.pprofSrv] ++
      [Subsys.metricsSrv] ++ [] ++ [] ++ [Subsys.loggerSub] := rfl
  rw [htarget]
  unfold closeResources
  simp only [List.filterMap_append]
  refine List.Sublist.append ?_ (filterMap_closeOpt_sublist _ _ _)
  refine List.Sublist.append ?_ (by split <;> simp [closedCoreSubsys])
  refine List.Sublist.append ?_ (by split <;> simp [closedCoreSubsys])
  refine List.Sublist.append ?_ (filterMap_closeOpt_sublist _ _ _)
  refine List.Sublist.append ?_ (filterMap_closeOpt_sublist _ _ _)
  refine List.Sublist.append ?_ (filterMap_closeOpt_sublist _ _ _)
  refine List.Sublist.append ?_ (filterMap_closeOpt_sublist _ _ _)
  refine List.Sublist.append ?_ (filterMap_closeOpt_sublist _ _ _)
  refine List.Sublist.append ?_ (filterMap_closeOpt_sublist _ _ _)
  refine List.Sublist.append ?_ (filterMap_closeOpt_sublist _ _ _)
  refine List.Sublist.append ?_ (filterMap_closeOpt_sublist _ _ _)
  refine List.Sublist.append ?_ (filterMap_closeOpt_sublist _ _ _)
  refine List.Sublist.append ?_ ?papi
  case papi =>
    split
    · split
      · simp [closedCoreSubsys]
      · split
        · split <;> simp [closedCoreSubsys]
        · simp
    · simp
  refine List.Sublist.append ?_ (by split <;> simp [closedCoreSubsys])
  rcases nc with _ | n
  · simp
  · split
    · simp [closedCoreSubsys_confReloadPathManager]
      intro a _ _ ha
      subst ha
      rfl
    · simp

theorem mem_ite_list {α : Type} (a : α) (l : List α) (b : Bool) :
    a ∈ (if b then l else []) ↔ (b = true ∧ a ∈ l) := by
  cases b <;> simp

theorem closeResources_state (st : CoreState) (nc : Option Conf) (capi : Bool) :
    (closeResources st nc capi).1.pathManager =
      (if (computeCloseFlags st.conf nc).closePathManager then none else st.pathManager) ∧
    (closeResources st nc capi).1.api =
      (if (computeCloseFlags st.conf nc).closeAPI then none else st.api) ∧
    (closeResources st nc capi).1.conf = st.conf ∧
    (closeResources st nc capi).1.confFound = st.confFound := by
  unfold closeResources
  refine ⟨?_, rfl, rfl, rfl⟩
  simp [closeOpt_fst]

theorem create_not_mem_closeResources (st : CoreState) (nc : Option Conf)
    (capi : Bool) (s : Subsys) :
    CoreAction.create s ∉ (closeResources st nc capi).2 := by
  intro h
  unfold closeResources at h
  rcases nc with _ | n <;> rcases hapi : st.api with _ | ga <;> rw [hapi] at h <;>
    simp_all [List.mem_append, mem_closeOpt, mem_ite_list] <;>
    split at h <;> simp_all

theorem close_api_mem_closeResources (st : CoreState) (nc : Option Conf) (capi : Bool) :
    CoreAction.close .api ∈ (closeResources st nc capi).2 ↔
      (st.api.isSome = true ∧ (computeCloseFlags st.conf nc).closeAPI = true) := by
  unfold closeResources
  rcases nc with _ | n <;> rcases hapi : st.api with _ | ga <;>
    simp_all [List.mem_append, mem_closeOpt, mem_ite_list] <;>
    (try (split <;> simp_all)) <;> (try (split <;> simp_all)) <;>
    (try (simp_all [and_comm, eq_comm])) <;> (try tauto) <;>
    (try (simp_all [and_comm, eq_comm])) <;> (try tauto)

theorem confReloadAPI_mem_closeResources (st : CoreState) (nc : Option Conf)
    (capi : Bool) (c : Conf) :
    CoreAction.confReloadAPI c ∈ (closeResources st nc capi).2 ↔
      (st.api.isSome = true ∧ (computeCloseFlags st.conf nc).closeAPI = false ∧
        capi = false ∧ nc = some c) := by
  unfold closeResources
  rcases nc with _ | n <;> rcases hapi : st.api with _ | ga <;>
    simp_all [List.mem_append, mem_closeOpt, mem_ite_list] <;>
    (try (split <;> simp_all)) <;> (try (split <;> simp_all)) <;>
    (try (simp_all [and_comm, eq_comm])) <;> (try tauto) <;>
    (try (simp_all [and_comm, eq_comm])) <;> (try tauto)

theorem close_pathManager_mem_closeResources (st : CoreState) (nc : Option Conf)
    (capi : Bool) :
    CoreAction.close .pathManager ∈ (closeResources st nc capi).2 ↔
      (st.pathManager.isSome = true ∧
        (computeCloseFlags st.conf nc).closePathManager = true) := by
  unfold closeResources
  rcases nc with _ | n <;> rcases hapi : st.api with _ | ga <;>
    simp_all [List.mem_append, mem_closeOpt, mem_ite_list] <;>
    (try (split <;> simp_all)) <;> (try (split <;> simp_all)) <;>
    (try (simp_all [and_comm, eq_comm])) <;> (try tauto) <;>
    (try (simp_all [and_comm, eq_comm])) <;> (try tauto)

theorem confReloadPathManager_mem_closeResources (st : CoreState) (nc : Option Conf)
    (capi : Bool) (p : PathsMap) :
    CoreAction.confReloadPathManager p ∈ (closeResources st nc capi).2 ↔
      (∃ n, nc = some n ∧ (computeCloseFlags st.conf nc).closePathManager = false ∧
        n.Paths ≠ st.conf.Paths ∧ p = n.Paths) := by
  unfold closeResources
  rcases nc with _ | n <;> rcases hapi : st.api with _ | ga <;>
    simp_all [List.mem_append, mem_closeOpt, mem_ite_list] <;>
    (try (split <;> simp_all)) <;> (try (split <;> simp_all)) <;>
    (try (simp_all [and_comm, eq_comm])) <;> (try tauto)

theorem close_not_mem_createResources (st : CoreState) (i : Bool) (s : Subsys) :
    CoreAction.close s ∉ (createResources st i).2 := by
  intro h
  unfold createResources at h
  simp_all [List.mem_append, mem_createOpt, mem_ite_list] <;>
    (try (split at h <;> simp_all)) <;> (try (split at h <;> simp_all)) <;>
    (try (split at h <;> simp_all)) <;> (try (split at h <;> simp_all))

theorem confReloadAPI_not_mem_createResources (st : CoreState) (i : Bool) (c : Conf) :
    CoreAction.confReloadAPI c ∉ (createResources st i).2 := by
  intro h
  unfold createResources at h
  simp_all [List.mem_append, mem_createOpt, mem_ite_list] <;>
    (try (split at h <;> simp_all)) <;> (try (split at h <;> simp_all)) <;>
    (try (split at h <;> simp_all)) <;> (try (split at h <;> simp_all))

theorem create_pathManager_mem_createResources (st : CoreState) (i : Bool) :
    CoreAction.create .pathManager ∈ (createResources st i).2 ↔ st.pathManager = none := by
  unfold createResources
  simp_all [List.mem_append, mem_createOpt, mem_ite_list] <;>
    (try (split <;> simp_all)) <;> (try (split <;> simp_all)) <;>
    (try (split <;> simp_all)) <;> (try (split <;> simp_all))

theorem create_api_mem_createResources (st : CoreState) (i : Bool) :
    CoreAction.create .api ∈ (createResources st i).2 ↔
      (st.conf.API = true ∧ st.api = none) := by
  unfold createResources
  simp_all [List.mem_append, mem_createOpt, mem_ite_list] <;>
    (try (split <;> simp_all)) <;> (try (split <;> simp_all)) <;>
    (try (split <;> simp_all)) <;> (try (split <;> simp_all))

theorem createResources_keep_pathManager (st : CoreState) (i : Bool) (g : Nat)
    (h : st.pathManager = some g) :
    (createResources st i).1.pathManager = some g := by
  unfold createResources
  simp [h, createOpt_some]

theorem createResources_keep_api (st : CoreState) (i : Bool) (g : Nat)
    (h : st.api = some g) :
    (createResources st i).1.api = some g := by
  unfold createResources
  simp [h, createOpt_some]

theorem createResources_api_isSome (st : CoreState) (i : Bool)
    (hA : st.conf.API = true) :
    ((createResources st i).1.api).isSome = true := by
  unfold createResources
  rcases hapi : st.api with _ | g <;> simp [hapi, hA, createOpt_fst, createOpt_some]

/-- C2: on a reload whose configuration differs from the current one only
in the Paths map (addresses, timeouts, buffer count and metrics settings
unchanged), the path manager is neither closed nor recreated: the same
instance survives and its confReload receives the new Paths map. -/
theorem pathManager_survives_paths_only_reload :
    ∀ (st : CoreState) (n : Conf) (g : Nat) (calledByAPI : Bool),
      st.pathManager = some g →
      n.RTSPAddress = st.conf.RTSPAddress →
      n.ReadTimeout = st.conf.ReadTimeout →
      n.WriteTimeout = st.conf.WriteTimeout →
      n.ReadBufferCount = st.conf.ReadBufferCount →
      n.Metrics = st.conf.Metrics →
      n.MetricsAddress = st.conf.MetricsAddress →
      n.Paths ≠ st.conf.Paths →
      CoreAction.confReloadPathManager n.Paths ∈ (reloadConf st n calledByAPI).2 ∧
      CoreAction.close .pathManager ∉ (reloadConf st n calledByAPI).2 ∧
      CoreAction.create .pathManager ∉ (reloadConf st n calledByAPI).2 ∧
      (reloadConf st n calledByAPI).1.pathManager = some g := by
  intro st n g capi hpm h1 h2 h3 h4 h5 h6 hp
  have hcpm : (computeCloseFlags st.conf (some n)).closePathManager = false := by
    simp [computeCloseFlags, h1, h2, h3, h4, h5, h6]
  have hacts : (reloadConf st n capi).2 =
      (closeResources st (some n) capi).2 ++
      (createResources { (closeResources st (some n) capi).1 with conf := n } false).2 := rfl
  have hstate : (reloadConf st n capi).1 =
      (createResources { (closeResources st (some n) capi).1 with conf := n } false).1 := rfl
  have hclosePM : (closeResources st (some n) capi).1.pathManager = some g := by
    rw [(closeResources_state st (some n) capi).1, hcpm]
    simpa using hpm
  refine ⟨?_, ?_, ?_, ?_⟩
  · rw [hacts]
    refine List.mem_append.mpr (Or.inl ?_)
    rw [confReloadPathManager_mem_closeResources]
    exact ⟨n, rfl, hcpm, hp, rfl⟩
  · rw [hacts]
    intro hmem
    rcases List.mem_append.mp hmem with hmem | hmem
    · rw [close_pathManager_mem_closeResources, hcpm] at hmem
      exact absurd hmem.2 (by simp)
    · exact close_not_mem_createResources _ _ _ hmem
  · rw [hacts]
    intro hmem
    rcases List.mem_append.mp hmem with hmem | hmem
    · exact create_not_mem_closeResources _ _ _ _ hmem
    · rw [create_pathManager_mem_createResources] at hmem
      have hpm2 : ({ (closeResources st (some n) capi).1 with conf := n } :
          CoreState).pathManager = some g := by simpa using hclosePM
      exact Option.noConfusion (hpm2.symm.trans hmem)
  · rw [hstate]
    exact createResources_keep_pathManager _ _ g (by simpa using hclosePM)

/-- Witness for C2 at a full core state reloaded with only a new path. -/
theorem pathManager_survives_paths_only_reload_witness :
    CoreAction.confReloadPathManager [("cam1", "x")] ∈
      (reloadConf fullCoreState { defaultConf with Paths := [("cam1", "x")] } false).2 ∧
    CoreAction.close .pathManager ∉
      (reloadConf fullCoreState { defaultConf with Paths := [("cam1", "x")] } false).2 ∧
    CoreAction.create .pathManager ∉
      (reloadConf fullCoreState { defaultConf with Paths := [("cam1", "x")] } false).2 ∧
    (reloadConf fullCoreState { defaultConf with Paths := [("cam1", "x")] } false).1.pathManager =
      some 3 := by
  have h := pathManager_survives_paths_only_reload fullCoreState
    { defaultConf with Paths := [("cam1", "x")] } 3 false
    rfl rfl rfl rfl rfl rfl rfl (by decide)
  exact h

/-- C10: when the API does not need to restart, a reload arriving through
apiConfigSet (calledByAPI = true) performs no api.confReload while a
file-watcher reload (calledByAPI = false) performs api.confReload with
the new configuration, and the API instance survives both; when the API
must restart, it is closed in both cases (and no confReload happens), and
in both cases recreated when the new configuration still enables it. -/
theorem api_reload_behaviour :
    ∀ (st : CoreState) (n : Conf) (g : Nat),
      st.api = some g →
      (if (computeCloseFlags st.conf (some n)).closeAPI then
        (CoreAction.close .api ∈ (reloadConf st n true).2 ∧
         CoreAction.close .api ∈ (reloadConf st n false).2 ∧
         (∀ c, CoreAction.confReloadAPI c ∉ (reloadConf st n true).2) ∧
         (∀ c, CoreAction.confReloadAPI c ∉ (reloadConf st n false).2) ∧
         (n.API = true →
           ((reloadConf st n true).1.api.isSome = true ∧
            (reloadConf st n false).1.api.isSome = true ∧
            CoreAction.create .api ∈ (reloadConf st n true).2 ∧
            CoreAction.create .api ∈ (reloadConf st n false).2)))
      else
        ((∀ c, CoreAction.confReloadAPI c ∉ (reloadConf st n true).2) ∧
         CoreAction.confReloadAPI n ∈ (reloadConf st n false).2 ∧
         (reloadConf st n true).1.api = some g ∧
         (reloadConf st n false).1.api = some g ∧
         CoreAction.close .api ∉ (reloadConf st n true).2 ∧
         CoreAction.close .api ∉ (reloadConf st n false).2)) := by
  intro st n g hapi
  have hacts : ∀ b, (reloadConf st n b).2 =
      (closeResources st (some n) b).2 ++
      (createResources { (closeResources st (some n) b).1 with conf := n } false).2 :=
    fun b => rfl
  have hstate : ∀ b, (reloadConf st n b).1 =
      (createResources { (closeResources st (some n) b).1 with conf := n } false).1 :=
    fun b => rfl
  have hSt2api : ∀ b, ({ (closeResources st (some n) b).1 with conf := n } :
      CoreState).api =
        (if (computeCloseFlags st.conf (some n)).closeAPI then none else st.api) :=
    fun b => (closeResources_state st (some n) b).2.1
  cases hca : (computeCloseFlags st.conf (some n)).closeAPI
  · simp only [hca, Bool.false_eq_true, if_false]
    have hSt2api2 : ∀ b, ({ (closeResources st (some n) b).1 with conf := n } :
        CoreState).api = some g := by
      intro b; rw [hSt2api b, hca]; simpa using hapi
    refine ⟨?_, ?_, ?_, ?_, ?_, ?_⟩
    · intro c hmem
      rcases List.mem_append.mp ((hacts true) ▸ hmem) with hmem | hmem
      · rw [confReloadAPI_mem_closeResources] at hmem
        simp at hmem
      · exact confReloadAPI_not_mem_createResources _ _ _ hmem
    · rw [hacts false]
      refine List.mem_append.mpr (Or.inl ?_)
      rw [confReloadAPI_mem_closeResources]
      exact ⟨by simp [hapi], hca, rfl, rfl⟩
    · rw [hstate true]
      exact createResources_keep_api _ _ g (hSt2api2 true)
    · rw [hstate false]
      exact createResources_keep_api _ _ g (hSt2api2 false)
    · intro hmem
      rcases List.mem_append.mp ((hacts true) ▸ hmem) with hmem | hmem
      · rw [close_api_mem_closeResources, hca] at hmem
        exact absurd hmem.2 (by simp)
      · exact close_not_mem_createResources _ _ _ hmem
    · intro hmem
      rcases List.mem_append.mp ((hacts false) ▸ hmem) with hmem | hmem
      · rw [close_api_mem_closeResources, hca] at hmem
        exact absurd hmem.2 (by simp)
      · exact close_not_mem_createResources _ _ _ hmem
  · simp only [hca, if_true]
    have hSt2api2 : ∀ b, ({ (closeResources st (some n) b).1 with conf := n } :
        CoreState).api = none := by
      intro b; rw [hSt2api b, hca]; simp
    refine ⟨?_, ?_, ?_, ?_, ?_⟩
    · rw [hacts true]
      refine List.mem_append.mpr (Or.inl ?_)
      rw [close_api_mem_closeResources]
      exact ⟨by simp [hapi], hca⟩
    · rw [hacts false]
      refine List.mem_append.mpr (Or.inl ?_)
      rw [close_api_mem_closeResources]
      exact ⟨by simp [hapi], hca⟩
    · intro c hmem
      rcases List.mem_append.mp ((hacts true) ▸ hmem) with hmem | hmem
      · rw [confReloadAPI_mem_closeResources, hca] at hmem
        exact absurd hmem.2.1 (by simp)
      · exact confReloadAPI_not_mem_createResources _ _ _ hmem
    · intro c hmem
      rcases List.mem_append.mp ((hacts false) ▸ hmem) with hmem | hmem
      · rw [confReloadAPI_mem_closeResources, hca] at hmem
        exact absurd hmem.2.1 (by simp)
      · exact confReloadAPI_not_mem_createResources _ _ _ hmem
    · intro hA
      refine ⟨?_, ?_, ?_, ?_⟩
      · rw [hstate true]
        refine createResources_api_isSome _ _ ?_
        simpa using hA
      · rw [hstate false]
        refine createResources_api_isSome _ _ ?_
        simpa using hA
      · rw [hacts true]
        refine List.mem_append.mpr (Or.inr ?_)
        rw [create_api_mem_createResources]
        exact ⟨by simpa using hA, hSt2api2 true⟩
      · rw [hacts false]
        refine List.mem_append.mpr (Or.inr ?_)
        rw [create_api_mem_createResources]
        exact ⟨by simpa using hA, hSt2api2 false⟩

/-- Witness for C10 at a full core state reloaded with an unchanged
configuration, where the API must not restart. -/
theorem api_reload_behaviour_witness :
    (∀ c, CoreAction.confReloadAPI c ∉ (reloadConf fullCoreState defaultConf true).2) ∧
    CoreAction.confReloadAPI defaultConf ∈ (reloadConf fullCoreState defaultConf false).2 ∧
    (reloadConf fullCoreState defaultConf true).1.api = some 10 ∧
    (reloadConf fullCoreState defaultConf false).1.api = some 10 ∧
    CoreAction.close .api ∉ (reloadConf fullCoreState defaultConf true).2 ∧
    CoreAction.close .api ∉ (reloadConf fullCoreState defaultConf false).2 := by
  have hflag : (computeCloseFlags fullCoreState.conf (some defaultConf)).closeAPI = false := by
    decide
  have h := api_reload_behaviour fullCoreState defaultConf 10 rfl
  rw [hflag] at h
  simpa using h
